import Mathlib

/-!
Verification development for the Duet game (`duet.py`).

The per-tick simulation loop, the mode dispatch of `move_balls`, the ball
initialization and the session construction are embedded directly from
`duet.py`.  The leaf modules `scripts/ball.py`, `scripts/obstacle_manager.py`
and `scripts/controller.py` are not part of the sources at hand; the
operations of those modules that the loop calls are modelled from the spec,
each such definition carries a doc comment saying so.

Conventions: machine real (float) arithmetic is modelled by `ℝ`; pygame
pixel coordinates of obstacles are `ℤ`; a Python exception or `exit()` is an
`Except.error`.
-/

set_option maxHeartbeats 1000000

/-- Module-level constant `BOARD_HEIGHT = 960` of duet.py. -/
def BOARD_HEIGHT : ℤ := 960

/-- Module-level constant `BOARD_WIDTH = 540` of duet.py. -/
def BOARD_WIDTH : ℤ := 540

/-- Module-level constant `CIRCLE_RADIUS = 100` of duet.py. -/
def CIRCLE_RADIUS : ℤ := 100

/-- Module-level constant `DIST_TO_BOTTOM = CIRCLE_RADIUS + 15` of duet.py. -/
def DIST_TO_BOTTOM : ℤ := CIRCLE_RADIUS + 15

/-- Module-level constant `SPIN_STEP = 0.0224` of duet.py (radians). -/
noncomputable def SPIN_STEP : ℝ := 0.0224

/-- Module-level constant `NEW_OBS_INTERVAL = 140` of duet.py. -/
def NEW_OBS_INTERVAL : ℕ := 140

/-- Modelled from the spec: `scripts/ball.py` is not among the sources.
A ball owns the fixed center of its orbit circle, the fixed orbit radius,
its mutable angular position `theta` (radians) and the fixed angular step
`dtheta`. -/
structure Ball where
  cx : ℝ
  cy : ℝ
  r : ℝ
  theta : ℝ
  dtheta : ℝ

/-- Normalization of an angle into `[0, 2*pi)`, the "wraps modulo 2*pi"
of the spec's Ball contract. -/
noncomputable def wrapAngle (x : ℝ) : ℝ :=
  x - 2 * Real.pi * ⌊x / (2 * Real.pi)⌋

/-- Modelled from the spec: `Ball.spin_left` decrements `theta` by the fixed
step magnitude and wraps modulo `2*pi` (`scripts/ball.py` is not among the
sources). -/
noncomputable def Ball.spin_left (b : Ball) : Ball :=
  { b with theta := wrapAngle (b.theta - b.dtheta) }

/-- Modelled from the spec: `Ball.spin_right` increments `theta` by the fixed
step magnitude and wraps modulo `2*pi` (`scripts/ball.py` is not among the
sources). -/
noncomputable def Ball.spin_right (b : Ball) : Ball :=
  { b with theta := wrapAngle (b.theta + b.dtheta) }

/-- Modelled from the spec: `Ball.position` is the derived cartesian position
`(cx + r*cos theta, cy + r*sin theta)`. -/
noncomputable def Ball.position (b : Ball) : ℝ × ℝ :=
  (b.cx + b.r * Real.cos b.theta, b.cy + b.r * Real.sin b.theta)

/-- Modelled from the spec: the Python `Ball(x, y, theta, radius, step)`
constructor receives the initial cartesian position together with the initial
angle; the fixed orbit center is recovered from them so that `position` of
the fresh ball is `(x, y)`. -/
noncomputable def mkBall (x y theta r dtheta : ℝ) : Ball :=
  { cx := x - r * Real.cos theta
    cy := y - r * Real.sin theta
    r := r
    theta := theta
    dtheta := dtheta }

/-- The blue ball of `DuetGame.init_balls` (duet.py lines 62-67):
`Ball(BOARD_WIDTH//2 - CIRCLE_RADIUS, BOARD_HEIGHT - DIST_TO_BOTTOM, pi,
CIRCLE_RADIUS, SPIN_STEP)`. -/
noncomputable def initBlue : Ball :=
  mkBall ((BOARD_WIDTH / 2 - CIRCLE_RADIUS : ℤ) : ℝ)
    ((BOARD_HEIGHT - DIST_TO_BOTTOM : ℤ) : ℝ)
    Real.pi ((CIRCLE_RADIUS : ℤ) : ℝ) SPIN_STEP

/-- The red ball of `DuetGame.init_balls` (duet.py lines 69-74):
`Ball(BOARD_WIDTH//2 + CIRCLE_RADIUS, BOARD_HEIGHT - DIST_TO_BOTTOM, 0,
CIRCLE_RADIUS, SPIN_STEP)`. -/
noncomputable def initRed : Ball :=
  mkBall ((BOARD_WIDTH / 2 + CIRCLE_RADIUS : ℤ) : ℝ)
    ((BOARD_HEIGHT - DIST_TO_BOTTOM : ℤ) : ℝ)
    0 ((CIRCLE_RADIUS : ℤ) : ℝ) SPIN_STEP

/-- Modelled from the spec: `scripts/obstacle_manager.py` is not among the
sources.  An obstacle is a pygame rectangle `(x, y, width, height)` in integer
pixel coordinates. -/
structure Obstacle where
  x : ℤ
  y : ℤ
  w : ℤ
  h : ℤ
  deriving DecidableEq

/-- An obstacle set: the group of obstacles spawned together by one
`new_obstacle_set()` call, the unit of scoring and removal. -/
abbrev ObstacleSet := List Obstacle

/-- Modelled from the spec: `Obstacle.move` advances `y` downward by the fixed
scroll speed `v` (a fixed constant shared by all obstacles, value owned by the
missing module, hence a parameter here). -/
def Obstacle.move (v : ℤ) (o : Obstacle) : Obstacle :=
  { o with y := o.y + v }

/-- All obstacles of a set moved `d` pixels downward. -/
def shiftSet (d : ℤ) (g : ObstacleSet) : ObstacleSet :=
  g.map fun o => { o with y := o.y + d }

/-- Modelled from the spec: an obstacle is out of frame when `y` exceeds the
board height plus its own height. -/
def Obstacle.out_of_frame (o : Obstacle) : Bool :=
  decide (BOARD_HEIGHT + o.h < o.y)

/-- Modelled from the spec: `ObstacleManager.oldest_out_of_frame` is true iff
every obstacle in the oldest set is out of frame; the sets are kept
oldest-first, the oldest set is the head of the list. -/
def setOutOfFrame (g : ObstacleSet) : Bool :=
  g.all Obstacle.out_of_frame

/-- Modelled from the spec: precise circle-rectangle overlap test of
`Ball.collided_with` via the closest point of the rectangle to the ball
center, with the recommended inclusive boundary (touching counts); `br` is
the fixed ball radius (value owned by the missing module, hence a
parameter). -/
def Ball.collided_with (br : ℝ) (b : Ball) (o : Obstacle) : Prop :=
  let p := b.position
  let qx := max (o.x : ℝ) (min p.1 ((o.x : ℝ) + (o.w : ℝ)))
  let qy := max (o.y : ℝ) (min p.2 ((o.y : ℝ) + (o.h : ℝ)))
  (p.1 - qx) ^ 2 + (p.2 - qy) ^ 2 ≤ br ^ 2

open Classical in
/-- The collision scan of duet.py lines 219-225: iterate over the oldest
obstacle set and flag game over as soon as either the blue or the red ball
has collided with an obstacle of that set. -/
noncomputable def collides_any (br : ℝ) (blue red : Ball) (g : ObstacleSet) : Bool :=
  decide (∃ o ∈ g, Ball.collided_with br blue o ∨ Ball.collided_with br red o)

/-- Per-tick external input.  `left`/`right` model the pygame key states read
in manual mode (duet.py lines 83-92); `controll` models the decision returned
by `Controller.get_controll` in contr mode (duet.py lines 96-104) -- the
controller heuristic lives in the missing `scripts/controller.py`, so its
decision is a free input here. -/
structure Input where
  left : Bool
  right : Bool
  controll : ℤ

/-- The input of a tick on which no key is pressed and the controller decision
is the no-op value 0. -/
def noInput : Input :=
  { left := false, right := false, controll := 0 }

/-- `DuetGame.move_balls` (duet.py lines 76-112): mode dispatch applying the
same spin to both balls; mode `"ai"` prints and exits, an unknown mode raises
`ValueError`. -/
noncomputable def move_balls (mode : String) (inp : Input) (b r : Ball) :
    Except String (Ball × Ball) :=
  if mode = "man" then
    if inp.left then .ok (b.spin_left, r.spin_left)
    else if inp.right then .ok (b.spin_right, r.spin_right)
    else .ok (b, r)
  else if mode = "contr" then
    if inp.controll = -1 then .ok (b.spin_left, r.spin_left)
    else if inp.controll = 1 then .ok (b.spin_right, r.spin_right)
    else .ok (b, r)
  else if mode = "ai" then .error "Not implemented yet!"
  else .error ("Invalid game mode " ++ mode)

/-- The mutable state of one game session at the top of the `game_loop` while
loop: the session attributes of `DuetGame` (mode, both balls, the obstacle
manager's oldest-first set list) together with the loop locals `score`, `i`
and `game_over` (duet.py lines 188-191).  `spawnCount` and `removeCount` are
observation counters with no influence on behaviour: they count the calls of
`new_obstacle_set` and `remove_obstacle_set` so that spawn and removal events
can be stated. -/
structure GameState where
  mode : String
  blue : Ball
  red : Ball
  sets : List ObstacleSet
  score : ℕ
  i : ℕ
  gameOver : Bool
  spawnCount : ℕ
  removeCount : ℕ

/-- One iteration of the `game_loop` while loop (duet.py lines 192-234),
with rendering and the window-close event poll omitted: move the balls,
move every obstacle of every set, pop the oldest set and count a point if it
is out of frame, append a freshly generated set (`gen`, since generation is
randomized) when `i % NEW_OBS_INTERVAL == 0`, test both balls against the
oldest set for collision, and advance the wrapped counter `i`.  Querying the
oldest set of an empty manager is the loud invariant violation of the spec,
an error here. -/
noncomputable def tick (inp : Input) (gen : ObstacleSet) (v : ℤ) (br : ℝ)
    (s : GameState) : Except String GameState :=
  match move_balls s.mode inp s.blue s.red with
  | .error e => .error e
  | .ok p =>
    match s.sets.map (shiftSet v) with
    | [] => .error "oldest_out_of_frame on empty obstacle manager"
    | g :: rest =>
      let sets2 := if setOutOfFrame g then rest else g :: rest
      let score2 := if setOutOfFrame g then s.score + 1 else s.score
      let rc2 := if setOutOfFrame g then s.removeCount + 1 else s.removeCount
      let sets3 := if s.i % NEW_OBS_INTERVAL = 0 then sets2 ++ [gen] else sets2
      let sc3 := if s.i % NEW_OBS_INTERVAL = 0 then s.spawnCount + 1 else s.spawnCount
      match sets3 with
      | [] => .error "oldest_obstacle_set on empty obstacle manager"
      | g2 :: rest2 =>
        .ok { mode := s.mode
              blue := p.1
              red := p.2
              sets := g2 :: rest2
              score := score2
              i := (s.i + 1) % NEW_OBS_INTERVAL
              gameOver := s.gameOver || collides_any br p.1 p.2 g2
              spawnCount := sc3
              removeCount := rc2 }

/-- Phase 1 of a tick: `self.move_balls()` (duet.py line 197). -/
noncomputable def phaseMoveBalls (inp : Input) (s : GameState) :
    Except String GameState :=
  (move_balls s.mode inp s.blue s.red).map fun p =>
    { s with blue := p.1, red := p.2 }

/-- Phase 2 of a tick: `self.move_obstacles()` (duet.py line 200). -/
def phaseMoveObstacles (v : ℤ) (s : GameState) : GameState :=
  { s with sets := s.sets.map (shiftSet v) }

/-- Phase 3 of a tick: expiry and scoring (duet.py lines 202-205); pop the
oldest set and count a point iff the oldest set is out of frame. -/
def phaseExpire (s : GameState) : Except String GameState :=
  match s.sets with
  | [] => .error "oldest_out_of_frame on empty obstacle manager"
  | g :: rest =>
    if setOutOfFrame g then
      .ok { s with
            sets := rest
            score := s.score + 1
            removeCount := s.removeCount + 1 }
    else .ok s

/-- Phase 4 of a tick: periodic spawn (duet.py lines 207-209). -/
def phaseSpawn (gen : ObstacleSet) (s : GameState) : GameState :=
  if s.i % NEW_OBS_INTERVAL = 0 then
    { s with sets := s.sets ++ [gen], spawnCount := s.spawnCount + 1 }
  else s

/-- Phase 5 of a tick: the collision test against the oldest set
(duet.py lines 219-225). -/
noncomputable def phaseCollide (br : ℝ) (s : GameState) :
    Except String GameState :=
  match s.sets with
  | [] => .error "oldest_obstacle_set on empty obstacle manager"
  | g :: _ =>
    .ok { s with gameOver := s.gameOver || collides_any br s.blue s.red g }

/-- Phase 6 of a tick: the wrapped counter update (duet.py lines 233-234). -/
def phaseIncr (s : GameState) : GameState :=
  { s with i := (s.i + 1) % NEW_OBS_INTERVAL }

/-- The state of a freshly constructed session at entry of `game_loop`:
`DuetGame.__init__` (duet.py lines 36-55) creates the two balls, an
`ObstacleManager` holding one freshly spawned set (its content `gen0` is a
parameter since generation is randomized) and stores the mode; `game_loop`
initializes `i = 1`, `score = 0` and the flags (duet.py lines 188-191). -/
noncomputable def initState (mode : String) (gen0 : ObstacleSet) : GameState :=
  { mode := mode
    blue := initBlue
    red := initRed
    sets := [gen0]
    score := 0
    i := 1
    gameOver := false
    spawnCount := 1
    removeCount := 0 }

/-- `DuetGame.__init__` (duet.py lines 36-55) as a fallible constructor:
the body performs no validation of `mode` whatsoever (the only mode test is
`if self.mode == "contr"` to build the controller), so construction always
succeeds, for every mode string. -/
noncomputable def DuetGame_init (mode : String) (gen0 : ObstacleSet) :
    Except String GameState :=
  .ok (initState mode gen0)

/-- The first `n` iterations of the `game_loop` while loop, consuming one
(input, generated set) pair per tick and stopping early once `game_over`
is set (duet.py line 192). -/
noncomputable def run (v : ℤ) (br : ℝ) :
    List (Input × ObstacleSet) → GameState → Except String GameState
  | [], s => .ok s
  | (inp, gen) :: rest, s =>
    if s.gameOver then .ok s
    else match tick inp gen v br s with
      | .error e => .error e
      | .ok s2 => run v br rest s2

/-- A sequence of `move_balls` steps, each with its own mode and input,
threaded through the pair of balls. -/
noncomputable def ballsRun :
    List (String × Input) → Ball × Ball → Except String (Ball × Ball)
  | [], p => .ok p
  | (m, inp) :: rest, p =>
    match move_balls m inp p.1 p.2 with
    | .error e => .error e
    | .ok q => ballsRun rest q

/-! ## Basic facts about the embedded definitions -/

/-- The vertical coordinate of a freshly constructed ball is the `y` handed to
the constructor. -/
lemma position_mkBall_snd (x y theta r dtheta : ℝ) :
    (mkBall x y theta r dtheta).position.2 = y := by
  simp [mkBall, Ball.position]

/-- The horizontal coordinate of a freshly constructed ball is the `x` handed
to the constructor. -/
lemma position_mkBall_fst (x y theta r dtheta : ℝ) :
    (mkBall x y theta r dtheta).position.1 = x := by
  simp [mkBall, Ball.position]

/-- The blue ball starts on the vertical level of the circle center,
`BOARD_HEIGHT - DIST_TO_BOTTOM = 845`. -/
lemma initBlue_position_snd : initBlue.position.2 = ((BOARD_HEIGHT - DIST_TO_BOTTOM : ℤ) : ℝ) :=
  position_mkBall_snd ..

/-- The red ball starts on the vertical level of the circle center. -/
lemma initRed_position_snd : initRed.position.2 = ((BOARD_HEIGHT - DIST_TO_BOTTOM : ℤ) : ℝ) :=
  position_mkBall_snd ..

/-- In manual mode with no key pressed, `move_balls` succeeds and keeps both
balls. -/
lemma move_balls_man_none (b r : Ball) (c : ℤ) :
    move_balls "man" { left := false, right := false, controll := c } b r = .ok (b, r) := rfl

/-- Whenever `move_balls` succeeds, either both balls were spun left, or both
were spun right, or both are untouched. -/
lemma move_balls_ok_cases (mode : String) (inp : Input) (b r : Ball)
    (p : Ball × Ball) (h : move_balls mode inp b r = .ok p) :
    p = (b.spin_left, r.spin_left) ∨ p = (b.spin_right, r.spin_right) ∨ p = (b, r) := by
  unfold move_balls at h
  split_ifs at h <;> simp_all

/-- Wrapping modulo `2*pi` changes an angle by an integer multiple of
`2*pi`. -/
lemma wrapAngle_eq_add_int_mul (x : ℝ) :
    ∃ m : ℤ, wrapAngle x = x + 2 * Real.pi * m :=
  ⟨-⌊x / (2 * Real.pi)⌋, by unfold wrapAngle; push_cast; ring⟩

/-- Synchronization invariant of a pair of balls: equal step magnitudes and
angular separation exactly `pi` modulo `2*pi`. -/
def SepInv (p : Ball × Ball) : Prop :=
  p.1.dtheta = p.2.dtheta ∧
    ∃ k : ℤ, p.1.theta - p.2.theta = Real.pi + 2 * Real.pi * k

/-- Spinning both balls left preserves the synchronization invariant. -/
lemma sepInv_spin_left (p : Ball × Ball) (h : SepInv p) :
    SepInv (p.1.spin_left, p.2.spin_left) := by
  obtain ⟨hd, k, hk⟩ := h
  obtain ⟨m1, hm1⟩ := wrapAngle_eq_add_int_mul (p.1.theta - p.1.dtheta)
  obtain ⟨m2, hm2⟩ := wrapAngle_eq_add_int_mul (p.2.theta - p.2.dtheta)
  constructor
  · simp [Ball.spin_left, hd]
  · refine ⟨k + m1 - m2, ?_⟩
    simp only [Ball.spin_left]
    rw [hm1, hm2, hd]
    push_cast
    linarith [hk]

/-- Spinning both balls right preserves the synchronization invariant. -/
lemma sepInv_spin_right (p : Ball × Ball) (h : SepInv p) :
    SepInv (p.1.spin_right, p.2.spin_right) := by
  obtain ⟨hd, k, hk⟩ := h
  obtain ⟨m1, hm1⟩ := wrapAngle_eq_add_int_mul (p.1.theta + p.1.dtheta)
  obtain ⟨m2, hm2⟩ := wrapAngle_eq_add_int_mul (p.2.theta + p.2.dtheta)
  constructor
  · simp [Ball.spin_right, hd]
  · refine ⟨k + m1 - m2, ?_⟩
    simp only [Ball.spin_right]
    rw [hm1, hm2, hd]
    push_cast
    linarith [hk]

/-- Any successful sequence of `move_balls` steps preserves the
synchronization invariant. -/
lemma ballsRun_sepInv :
    ∀ (steps : List (String × Input)) (p q : Ball × Ball),
      SepInv p → ballsRun steps p = .ok q → SepInv q := by
  intro steps
  induction steps with
  | nil =>
    intro p q h hr
    simp only [ballsRun, Except.ok.injEq] at hr
    exact hr ▸ h
  | cons st rest ih =>
    intro p q h hr
    obtain ⟨m, inp⟩ := st
    simp only [ballsRun] at hr
    cases hmb : move_balls m inp p.1 p.2 with
    | error e => rw [hmb] at hr; exact absurd hr (by simp)
    | ok q1 =>
      rw [hmb] at hr
      rcases move_balls_ok_cases _ _ _ _ _ hmb with h1 | h1 | h1 <;> subst h1
      · exact ih _ _ (sepInv_spin_left p h) hr
      · exact ih _ _ (sepInv_spin_right p h) hr
      · exact ih _ _ h hr

/-- The initial ball pair satisfies the synchronization invariant. -/
lemma sepInv_init : SepInv (initBlue, initRed) := by
  refine ⟨rfl, 0, ?_⟩
  simp [initBlue, initRed, mkBall]

/-- C1 counterexample: constructing a session with the unimplemented mode
`"ai"` does not raise anything -- `DuetGame.__init__` contains no mode
validation, so construction succeeds and a full session state starts. -/
theorem c1_ai_construction_succeeds :
    DuetGame_init "ai" [] = .ok (initState "ai" []) := rfl

/-- C1 (amended): session construction succeeds for mode `"ai"` (no mode
check is performed at construction); the unsupported-mode failure instead
happens at the first `move_balls` call of the first tick, which halts with
the message `Not implemented yet!`. -/
theorem c1_ai_fails_at_first_move_balls :
    (∀ gen0 : ObstacleSet, DuetGame_init "ai" gen0 = .ok (initState "ai" gen0)) ∧
    (∀ (inp : Input) (b r : Ball),
      move_balls "ai" inp b r = .error "Not implemented yet!") :=
  ⟨fun _ => rfl, fun _ _ _ => rfl⟩

/-- C2: whenever `move_balls` succeeds, the blue and the red ball are spun
together and in the same direction (both left, both right, or neither), and
consequently after any successful sequence of steering steps from the initial
pair the angular separation of the two balls is exactly `pi` modulo
`2*pi`. -/
theorem c2_balls_rotate_together_sep_pi :
    (∀ (mode : String) (inp : Input) (b r : Ball) (p : Ball × Ball),
        move_balls mode inp b r = .ok p →
        p = (b.spin_left, r.spin_left) ∨ p = (b.spin_right, r.spin_right) ∨
          p = (b, r)) ∧
    (∀ (steps : List (String × Input)) (p : Ball × Ball),
        ballsRun steps (initBlue, initRed) = .ok p →
        ∃ k : ℤ, p.1.theta - p.2.theta = Real.pi + 2 * Real.pi * k) := by
  constructor
  · exact move_balls_ok_cases
  · intro steps p h
    exact (ballsRun_sepInv steps _ p sepInv_init h).2

/-- C2 witness: one concrete steer-left step from the initial pair. -/
theorem c2_witness :
    ((initBlue.spin_left, initRed.spin_left) = (initBlue.spin_left, initRed.spin_left) ∨
      (initBlue.spin_left, initRed.spin_left) = (initBlue.spin_right, initRed.spin_right) ∨
      (initBlue.spin_left, initRed.spin_left) = (initBlue, initRed)) ∧
    (∃ k : ℤ, (initBlue.spin_left, initRed.spin_left).1.theta -
        (initBlue.spin_left, initRed.spin_left).2.theta =
        Real.pi + 2 * Real.pi * k) :=
  ⟨c2_balls_rotate_together_sep_pi.1 "man" { left := true, right := false, controll := 0 }
      initBlue initRed _ rfl,
    c2_balls_rotate_together_sep_pi.2
      [("man", { left := true, right := false, controll := 0 })] _ rfl⟩

/-- C8: at session construction the two balls are exactly the balls of
`init_balls`: the blue ball at angle `pi`, the red ball at angle `0`, both
with orbit radius `CIRCLE_RADIUS` and angular step `SPIN_STEP`. -/
theorem c8_initial_balls (mode : String) (gen0 : ObstacleSet) :
    (initState mode gen0).blue = initBlue ∧ (initState mode gen0).red = initRed ∧
    initBlue.theta = Real.pi ∧ initRed.theta = 0 ∧
    initBlue.r = (CIRCLE_RADIUS : ℝ) ∧ initRed.r = (CIRCLE_RADIUS : ℝ) ∧
    initBlue.dtheta = SPIN_STEP ∧ initRed.dtheta = SPIN_STEP :=
  ⟨rfl, rfl, rfl, rfl, rfl, rfl, rfl, rfl⟩

/-- C9: in contr mode, whenever the controller decision is neither `-1` nor
`+1`, `move_balls` succeeds and leaves both balls completely unchanged. -/
theorem c9_contr_other_decision_noop (inp : Input) (b r : Ball)
    (h1 : inp.controll ≠ -1) (h2 : inp.controll ≠ 1) :
    move_balls "contr" inp b r = .ok (b, r) := by
  simp [move_balls, h1, h2]

/-- C9 witness: the no-op decision `0` on the initial balls. -/
theorem c9_witness :
    move_balls "contr" noInput initBlue initRed = .ok (initBlue, initRed) :=
  c9_contr_other_decision_noop noInput initBlue initRed (by decide) (by decide)

/-- Full characterization of a successful tick: the balls are the output of
`move_balls`, the set list is the moved list with the oldest set popped iff it
is out of frame and `gen` appended iff `i % NEW_OBS_INTERVAL == 0`, score and
the observation counters move in lockstep with those two events, the counter
wraps, and game over is the old flag or-ed with the collision scan of the
(new) oldest set against the (new) balls. -/
lemma tick_ok_characterization (inp : Input) (gen : ObstacleSet) (v : ℤ) (br : ℝ)
    (s s' : GameState) (h : tick inp gen v br s = .ok s') :
    ∃ (p : Ball × Ball) (g : ObstacleSet) (rest : List ObstacleSet),
      move_balls s.mode inp s.blue s.red = .ok p ∧
      s.sets.map (shiftSet v) = g :: rest ∧
      s'.mode = s.mode ∧ s'.blue = p.1 ∧ s'.red = p.2 ∧
      s'.sets = (if s.i % NEW_OBS_INTERVAL = 0 then
          (if setOutOfFrame g then rest else g :: rest) ++ [gen]
        else (if setOutOfFrame g then rest else g :: rest)) ∧
      s'.score = (if setOutOfFrame g then s.score + 1 else s.score) ∧
      s'.removeCount = (if setOutOfFrame g then s.removeCount + 1 else s.removeCount) ∧
      s'.spawnCount = (if s.i % NEW_OBS_INTERVAL = 0 then s.spawnCount + 1 else s.spawnCount) ∧
      s'.i = (s.i + 1) % NEW_OBS_INTERVAL ∧
      s'.sets ≠ [] ∧
      s'.gameOver = (s.gameOver || collides_any br p.1 p.2 (s'.sets.headD [])) := by
  unfold tick at h
  cases hmb : move_balls s.mode inp s.blue s.red with
  | error e => rw [hmb] at h; exact absurd h (by simp)
  | ok p =>
    rw [hmb] at h
    cases hsets : s.sets.map (shiftSet v) with
    | nil => rw [hsets] at h; exact absurd h (by simp)
    | cons g rest =>
      rw [hsets] at h
      refine ⟨p, g, rest, rfl, rfl, ?_⟩
      cases hoof : setOutOfFrame g <;> by_cases hsp : s.i % NEW_OBS_INTERVAL = 0 <;>
        simp only [hoof, hsp, Bool.false_eq_true, Bool.true_eq_false, if_true, if_false,
          ite_true, ite_false] at h ⊢
      · -- no removal, spawn : scrutinee (g :: rest) ++ [gen]
        injection h with h
        subst h
        exact ⟨rfl, rfl, rfl, rfl, rfl, rfl, rfl, rfl, by simp, rfl⟩
      · -- no removal, no spawn : scrutinee g :: rest
        injection h with h
        subst h
        exact ⟨rfl, rfl, rfl, rfl, rfl, rfl, rfl, rfl, by simp, rfl⟩
      · -- removal, spawn : scrutinee rest ++ [gen]
        cases rest with
        | nil =>
          injection h with h
          subst h
          exact ⟨rfl, rfl, rfl, rfl, rfl, rfl, rfl, rfl, by simp, rfl⟩
        | cons g2 rest2 =>
          injection h with h
          subst h
          exact ⟨rfl, rfl, rfl, rfl, rfl, rfl, rfl, rfl, by simp, rfl⟩
      · -- removal, no spawn : scrutinee rest
        cases rest with
        | nil => exact absurd h (by simp)
        | cons g2 rest2 =>
          injection h with h
          subst h
          exact ⟨rfl, rfl, rfl, rfl, rfl, rfl, rfl, rfl, by simp, rfl⟩

/-- A ball whose center is strictly more than the ball radius below the
bottom edge of an obstacle cannot collide with it. -/
lemma not_collided_of_above (br : ℝ) (b : Ball) (o : Obstacle) (hbr : 0 ≤ br)
    (hh : (0 : ℤ) ≤ o.h)
    (hlow : (o.y : ℝ) + (o.h : ℝ) + br < b.position.2) :
    ¬ Ball.collided_with br b o := by
  unfold Ball.collided_with
  intro hc
  simp only at hc
  have hcast : (0 : ℝ) ≤ (o.h : ℝ) := by exact_mod_cast hh
  have h1 : max (o.y : ℝ) (min b.position.2 ((o.y : ℝ) + (o.h : ℝ))) ≤ (o.y : ℝ) + (o.h : ℝ) :=
    max_le (by linarith) (min_le_right _ _)
  have h2 : br < b.position.2 - max (o.y : ℝ) (min b.position.2 ((o.y : ℝ) + (o.h : ℝ))) := by
    linarith
  have h3 : br ^ 2 < (b.position.2 - max (o.y : ℝ) (min b.position.2 ((o.y : ℝ) + (o.h : ℝ)))) ^ 2 := by
    nlinarith
  nlinarith [sq_nonneg (b.position.1 - max (o.x : ℝ) (min b.position.1 ((o.x : ℝ) + (o.w : ℝ))))]

/-- The collision scan reports no collision when every obstacle of the set
lies strictly above both balls. -/
lemma collides_any_false_of_above (br : ℝ) (blue red : Ball) (g : ObstacleSet)
    (hbr : 0 ≤ br)
    (H : ∀ o ∈ g, (0 : ℤ) ≤ o.h ∧
      (o.y : ℝ) + (o.h : ℝ) + br < blue.position.2 ∧
      (o.y : ℝ) + (o.h : ℝ) + br < red.position.2) :
    collides_any br blue red g = false := by
  simp only [collides_any, decide_eq_false_iff_not]
  rintro ⟨o, ho, hcol | hcol⟩
  · exact not_collided_of_above br blue o hbr (H o ho).1 (H o ho).2.1 hcol
  · exact not_collided_of_above br red o hbr (H o ho).1 (H o ho).2.2 hcol

/-- C3: on every successful tick the terminal flag is set exactly when either
ball collides with some obstacle of the oldest obstacle set (the head of the
post-tick set list), and only that set enters the test. -/
theorem c3_collision_tests_oldest_set_only (inp : Input) (gen : ObstacleSet)
    (v : ℤ) (br : ℝ) (s s' : GameState) (h : tick inp gen v br s = .ok s') :
    ∃ g2, s'.sets.head? = some g2 ∧
      ((s'.gameOver = true) ↔ (s.gameOver = true ∨
        ∃ o ∈ g2, Ball.collided_with br s'.blue o ∨ Ball.collided_with br s'.red o)) := by
  obtain ⟨p, g0, rest0, hmb, hsets, hmode, hb, hr, hsetsEq, hscore, hrc, hsc, hi, hne, hgo⟩ :=
    tick_ok_characterization inp gen v br s s' h
  obtain ⟨g2, rest2, hseq⟩ := List.exists_cons_of_ne_nil hne
  refine ⟨g2, by rw [hseq]; rfl, ?_⟩
  rw [hb, hr, hgo, hseq]
  simp [collides_any]

/-- C4: on every successful tick, if the (moved) oldest set is out of frame it
is removed exactly once and the score increments by exactly one, and if it is
not, no set is removed and the score is unchanged. -/
theorem c4_removal_and_score_in_lockstep (inp : Input) (gen : ObstacleSet)
    (v : ℤ) (br : ℝ) (s s' : GameState) (h : tick inp gen v br s = .ok s') :
    ∀ g rest, s.sets.map (shiftSet v) = g :: rest →
      ((setOutOfFrame g = true →
          s'.score = s.score + 1 ∧ s'.removeCount = s.removeCount + 1 ∧
          s'.sets = rest ++ (if s.i % NEW_OBS_INTERVAL = 0 then [gen] else [])) ∧
        (setOutOfFrame g = false →
          s'.score = s.score ∧ s'.removeCount = s.removeCount ∧
          s'.sets = (g :: rest) ++ (if s.i % NEW_OBS_INTERVAL = 0 then [gen] else []))) := by
  obtain ⟨p, g0, rest0, hmb, hsets, hmode, hb, hr, hsetsEq, hscore, hrc, hsc, hi, hne, hgo⟩ :=
    tick_ok_characterization inp gen v br s s' h
  intro g rest hgr
  rw [hsets] at hgr
  injection hgr with hg hrest
  subst hg
  subst hrest
  constructor
  · intro hoof
    simp only [hoof, if_true, ite_true] at hscore hrc hsetsEq
    refine ⟨hscore, hrc, ?_⟩
    by_cases hsp : s.i % NEW_OBS_INTERVAL = 0 <;>
      simp only [hsp, if_true, if_false, ite_true, ite_false] at hsetsEq ⊢ <;>
      simp [hsetsEq]
  · intro hoof
    simp only [hoof, Bool.false_eq_true, if_false, ite_false] at hscore hrc hsetsEq
    refine ⟨hscore, hrc, ?_⟩
    by_cases hsp : s.i % NEW_OBS_INTERVAL = 0 <;>
      simp only [hsp, if_true, if_false, ite_true, ite_false] at hsetsEq ⊢ <;>
      simp [hsetsEq]

/-- C5: on every successful tick, exactly one new obstacle set is spawned iff
the tick counter is congruent to 0 modulo `NEW_OBS_INTERVAL` (and it is
appended at the far end, away from the oldest set); the counter then advances
by one modulo `NEW_OBS_INTERVAL`.  The spawn condition reads only the counter,
never the removal state. -/
theorem c5_spawn_iff_counter_mod (inp : Input) (gen : ObstacleSet)
    (v : ℤ) (br : ℝ) (s s' : GameState) (h : tick inp gen v br s = .ok s') :
    s'.spawnCount = s.spawnCount + (if s.i % NEW_OBS_INTERVAL = 0 then 1 else 0) ∧
    (s.i % NEW_OBS_INTERVAL = 0 → s'.sets.getLast? = some gen) ∧
    s'.i = (s.i + 1) % NEW_OBS_INTERVAL := by
  obtain ⟨p, g0, rest0, hmb, hsets, hmode, hb, hr, hsetsEq, hscore, hrc, hsc, hi, hne, hgo⟩ :=
    tick_ok_characterization inp gen v br s s' h
  refine ⟨?_, ?_, hi⟩
  · by_cases hsp : s.i % NEW_OBS_INTERVAL = 0 <;> simp [hsp] at hsc ⊢ <;> omega
  · intro hsp
    simp only [hsp, if_true, ite_true] at hsetsEq
    rw [hsetsEq]
    simp

/-- C10: on every successful tick at most one obstacle set is removed and the
score grows by at most one, even when several sets are simultaneously out of
frame: the second-oldest moved set always survives into the post-tick set
list. -/
theorem c10_at_most_one_removal_per_tick (inp : Input) (gen : ObstacleSet)
    (v : ℤ) (br : ℝ) (s s' : GameState) (h : tick inp gen v br s = .ok s') :
    s'.score ≤ s.score + 1 ∧ s'.removeCount ≤ s.removeCount + 1 ∧
    (∀ g1 g2 rest, s.sets.map (shiftSet v) = g1 :: g2 :: rest → g2 ∈ s'.sets) := by
  obtain ⟨p, g0, rest0, hmb, hsets, hmode, hb, hr, hsetsEq, hscore, hrc, hsc, hi, hne, hgo⟩ :=
    tick_ok_characterization inp gen v br s s' h
  refine ⟨?_, ?_, ?_⟩
  · by_cases hoof : setOutOfFrame g0 = true <;> simp [hoof] at hscore <;> omega
  · by_cases hoof : setOutOfFrame g0 = true <;> simp [hoof] at hrc <;> omega
  · intro g1 g2 rest hgr
    rw [hsets] at hgr
    injection hgr with hg hrest
    subst hg
    subst hrest
    have hg2 : g2 ∈ (if setOutOfFrame g0 then g2 :: rest else g0 :: g2 :: rest) := by
      by_cases hoof : setOutOfFrame g0 = true <;> simp [hoof]
    rw [hsetsEq]
    by_cases hsp : s.i % NEW_OBS_INTERVAL = 0 <;>
      simp only [hsp, if_true, if_false, ite_true, ite_false]
    · exact List.mem_append_left _ hg2
    · exact hg2

/-- A concrete obstacle for witness evaluation: full-width bar at the top. -/
def cObs : Obstacle := { x := 0, y := 0, w := 540, h := 50 }

/-- A concrete obstacle set for witness evaluation. -/
def cSet : ObstacleSet := [cObs]

/-- A concrete session state for witness evaluation: a fresh manual-mode
session whose construction spawned `cSet`. -/
noncomputable def cState : GameState := initState "man" cSet

/-- The state after one tick of `cState` with no input, scroll speed 4 and
ball radius 10. -/
noncomputable def cNext : GameState :=
  { mode := "man"
    blue := initBlue
    red := initRed
    sets := [[{ x := 0, y := 4, w := 540, h := 50 }]]
    score := 0
    i := 2
    gameOver := false
    spawnCount := 1
    removeCount := 0 }

/-- The concrete moved obstacle set is far above both balls, so the collision
scan reports false. -/
lemma collides_c_false :
    collides_any 10 initBlue initRed [{ x := 0, y := 4, w := 540, h := 50 }] = false := by
  apply collides_any_false_of_above
  · norm_num
  · intro o ho
    simp only [List.mem_singleton] at ho
    subst ho
    refine ⟨by norm_num, ?_, ?_⟩
    · rw [initBlue_position_snd]
      norm_num [BOARD_HEIGHT, DIST_TO_BOTTOM, CIRCLE_RADIUS]
    · rw [initRed_position_snd]
      norm_num [BOARD_HEIGHT, DIST_TO_BOTTOM, CIRCLE_RADIUS]

/-- One concrete tick, evaluated: no removal, no spawn, no collision. -/
lemma tick_eval_c : tick noInput cSet 4 10 cState = .ok cNext := by
  have h1 : tick noInput cSet 4 10 cState = .ok { cNext with
      gameOver := false || collides_any 10 initBlue initRed
        [{ x := 0, y := 4, w := 540, h := 50 }] } := rfl
  rw [h1, collides_c_false]
  rfl

/-- C3 witness: the concrete tick, where no collision occurs and the flag
stays down. -/
theorem c3_witness :
    ∃ g2, cNext.sets.head? = some g2 ∧
      ((cNext.gameOver = true) ↔ (cState.gameOver = true ∨
        ∃ o ∈ g2, Ball.collided_with 10 cNext.blue o ∨ Ball.collided_with 10 cNext.red o)) :=
  c3_collision_tests_oldest_set_only noInput cSet 4 10 cState cNext tick_eval_c

/-- C4 witness: the concrete tick, on which the moved oldest set is not out
of frame, so score and set list are untouched. -/
theorem c4_witness :
    (setOutOfFrame [({ x := 0, y := 4, w := 540, h := 50 } : Obstacle)] = true →
        cNext.score = cState.score + 1 ∧ cNext.removeCount = cState.removeCount + 1 ∧
        cNext.sets = [] ++ (if cState.i % NEW_OBS_INTERVAL = 0 then [cSet] else [])) ∧
    (setOutOfFrame [({ x := 0, y := 4, w := 540, h := 50 } : Obstacle)] = false →
        cNext.score = cState.score ∧ cNext.removeCount = cState.removeCount ∧
        cNext.sets = ([({ x := 0, y := 4, w := 540, h := 50 } : Obstacle)] :: []) ++
          (if cState.i % NEW_OBS_INTERVAL = 0 then [cSet] else [])) :=
  c4_removal_and_score_in_lockstep noInput cSet 4 10 cState cNext tick_eval_c
    [({ x := 0, y := 4, w := 540, h := 50 } : Obstacle)] [] rfl

/-- C5 witness: the concrete tick, whose counter is 1, so no spawn happens
and the counter moves to 2. -/
theorem c5_witness :
    cNext.spawnCount = cState.spawnCount + (if cState.i % NEW_OBS_INTERVAL = 0 then 1 else 0) ∧
    (cState.i % NEW_OBS_INTERVAL = 0 → cNext.sets.getLast? = some cSet) ∧
    cNext.i = (cState.i + 1) % NEW_OBS_INTERVAL :=
  c5_spawn_iff_counter_mod noInput cSet 4 10 cState cNext tick_eval_c

/-- C10 witness: the concrete tick, with score growth 0 of at most 1. -/
theorem c10_witness :
    cNext.score ≤ cState.score + 1 ∧ cNext.removeCount ≤ cState.removeCount + 1 ∧
    (∀ g1 g2 rest, cState.sets.map (shiftSet 4) = g1 :: g2 :: rest → g2 ∈ cNext.sets) :=
  c10_at_most_one_removal_per_tick noInput cSet 4 10 cState cNext tick_eval_c

/-- C7: within one tick the operations happen in the loop's order: apply
control and move the balls, then move all obstacles, then expire the oldest
set and update the score, then spawn, then run the collision test on the
already-moved world, then advance the counter.  `tick` is exactly this
pipeline of the six phases. -/
theorem c7_tick_is_phase_pipeline (inp : Input) (gen : ObstacleSet)
    (v : ℤ) (br : ℝ) (s : GameState) :
    tick inp gen v br s =
      (phaseMoveBalls inp s).bind fun s1 =>
        (phaseExpire (phaseMoveObstacles v s1)).bind fun s3 =>
          (phaseCollide br (phaseSpawn gen s3)).map phaseIncr := by
  cases hmb : move_balls s.mode inp s.blue s.red with
  | error e =>
    simp [tick, phaseMoveBalls, hmb, Except.map, Except.bind]
  | ok p =>
    cases hsets : s.sets.map (shiftSet v) with
    | nil =>
      simp [tick, phaseMoveBalls, hmb, Except.map, Except.bind,
        phaseMoveObstacles, phaseExpire, hsets]
    | cons g rest =>
      cases hoof : setOutOfFrame g <;> by_cases hsp : s.i % NEW_OBS_INTERVAL = 0 <;>
        cases rest <;>
        simp [tick, phaseMoveBalls, hmb, Except.map, Except.bind,
          phaseMoveObstacles, phaseExpire, phaseSpawn, phaseCollide, phaseIncr,
          hsets, hoof, hsp]

/-- Shifting twice composes additively. -/
lemma shiftSet_shiftSet (a b : ℤ) (g : ObstacleSet) :
    shiftSet a (shiftSet b g) = shiftSet (b + a) g := by
  simp only [shiftSet, List.map_map]
  apply List.map_congr_left
  intro o _
  simp [add_assoc]

/-- Shifting by zero is the identity. -/
lemma shiftSet_zero (g : ObstacleSet) : shiftSet 0 g = g := by
  simp [shiftSet]

/-- Membership in a shifted set. -/
lemma mem_shiftSet {o' : Obstacle} {d : ℤ} {g : ObstacleSet} :
    o' ∈ shiftSet d g ↔ ∃ o ∈ g, o' = { o with y := o.y + d } := by
  simp [shiftSet, eq_comm]

/-- A nonempty set with every obstacle still inside the frame bound is not
judged out of frame. -/
lemma setOutOfFrame_eq_false_of (g : ObstacleSet) (hne : g ≠ [])
    (H : ∀ o ∈ g, o.y ≤ BOARD_HEIGHT + o.h) : setOutOfFrame g = false := by
  cases g with
  | nil => exact absurd rfl hne
  | cons o t =>
    have h1 := H o (List.mem_cons_self o t)
    simp only [setOutOfFrame, List.all_cons, Bool.and_eq_false_iff]
    left
    simp only [Obstacle.out_of_frame, decide_eq_false_iff_not, not_lt]
    exact h1

/-- A quiet tick: single-set manager, no input, the moved set neither out of
frame nor colliding -- only the obstacles scroll, a spawn happens iff the
counter says so, and the counter advances. -/
lemma tick_quiet (gen : ObstacleSet) (v : ℤ) (br : ℝ) (g : ObstacleSet)
    (i sc rc spc : ℕ)
    (hg : setOutOfFrame (shiftSet v g) = false)
    (hcol : collides_any br initBlue initRed (shiftSet v g) = false) :
    tick noInput gen v br
      { mode := "man"
        blue := initBlue
        red := initRed
        sets := [g]
        score := sc
        i := i
        gameOver := false
        spawnCount := spc
        removeCount := rc }
      = .ok { mode := "man"
              blue := initBlue
              red := initRed
              sets := if i % NEW_OBS_INTERVAL = 0 then [shiftSet v g, gen] else [shiftSet v g]
              score := sc
              i := (i + 1) % NEW_OBS_INTERVAL
              gameOver := false
              spawnCount := if i % NEW_OBS_INTERVAL = 0 then spc + 1 else spc
              removeCount := rc } := by
  simp only [tick]
  rw [show move_balls "man" noInput initBlue initRed = Except.ok (initBlue, initRed) from rfl]
  simp only [List.map_cons, List.map_nil, hg, hcol, Bool.false_eq_true, if_false,
    ite_false, Bool.or_false]
  by_cases hsp : i % NEW_OBS_INTERVAL = 0 <;>
    simp [hsp, hcol]

/-- The expected state after `k` ticks of the quiet 140-tick scenario: for
`k ≤ 139` only the initial set has scrolled `k*v` and the counter advanced;
at `k = 140` the tick-140 spawn has appended `g1` and the counter wrapped. -/
noncomputable def c6State (g0 g1 : ObstacleSet) (v : ℤ) (k : ℕ) : GameState :=
  if k ≤ 139 then
    { mode := "man"
      blue := initBlue
      red := initRed
      sets := [shiftSet ((k : ℤ) * v) g0]
      score := 0
      i := (k + 1) % NEW_OBS_INTERVAL
      gameOver := false
      spawnCount := 1
      removeCount := 0 }
  else
    { mode := "man"
      blue := initBlue
      red := initRed
      sets := [shiftSet (140 * v) g0, g1]
      score := 0
      i := 1
      gameOver := false
      spawnCount := 2
      removeCount := 0 }

/-- At `k = 0` the scenario state is the freshly constructed session. -/
lemma c6State_zero (g0 g1 : ObstacleSet) (v : ℤ) :
    c6State g0 g1 v 0 = initState "man" g0 := by
  simp [c6State, initState, shiftSet_zero, NEW_OBS_INTERVAL]

/-- The scenario state never has the terminal flag up. -/
lemma c6State_gameOver (g0 g1 : ObstacleSet) (v : ℤ) (k : ℕ) :
    (c6State g0 g1 v k).gameOver = false := by
  unfold c6State
  split <;> rfl

/-- Unrolling `run` over a replicated input list along a trace of successful,
non-terminal ticks. -/
lemma run_of_steps (v : ℤ) (br : ℝ) (inp : Input) (gen : ObstacleSet) :
    ∀ (n : ℕ) (f : ℕ → GameState),
      (∀ k, k < n → (f k).gameOver = false) →
      (∀ k, k < n → tick inp gen v br (f k) = .ok (f (k + 1))) →
      run v br (List.replicate n (inp, gen)) (f 0) = .ok (f n) := by
  intro n
  induction n with
  | zero =>
    intro f _ _
    simp [run]
  | succ m ih =>
    intro f hgo hstep
    rw [List.replicate_succ]
    simp only [run, hgo 0 (by omega), Bool.false_eq_true, if_false, ite_false,
      hstep 0 (by omega)]
    have := ih (fun k => f (k + 1)) (fun k hk => hgo (k + 1) (by omega))
      (fun k hk => hstep (k + 1) (by omega))
    simpa using this

/-- One step of the quiet scenario: each of the 140 ticks turns the expected
state at `k` into the expected state at `k + 1`. -/
lemma c6_step (g0 g1 : ObstacleSet) (v : ℤ) (br : ℝ)
    (hne : g0 ≠ []) (hv : 0 ≤ v) (hbr : 0 ≤ br)
    (hh : ∀ o ∈ g0, (0 : ℤ) ≤ o.h)
    (hframe : ∀ o ∈ g0, o.y + 140 * v ≤ BOARD_HEIGHT + o.h)
    (hcol : ∀ o ∈ g0, (o.y : ℝ) + (o.h : ℝ) + 140 * (v : ℝ) + br <
      ((BOARD_HEIGHT - DIST_TO_BOTTOM : ℤ) : ℝ))
    (k : ℕ) (hk : k < 140) :
    tick noInput g1 v br (c6State g0 g1 v k) = .ok (c6State g0 g1 v (k + 1)) := by
  have hk139 : k ≤ 139 := by omega
  have hshift : shiftSet v (shiftSet ((k : ℤ) * v) g0) =
      shiftSet (((k + 1 : ℕ) : ℤ) * v) g0 := by
    rw [shiftSet_shiftSet]
    congr 1
    push_cast
    ring
  have hle : (((k + 1 : ℕ) : ℤ)) * v ≤ 140 * v := by
    have h1 : (((k + 1 : ℕ) : ℤ)) ≤ 140 := by exact_mod_cast Nat.succ_le_of_lt hk
    exact mul_le_mul_of_nonneg_right h1 hv
  have hgF : setOutOfFrame (shiftSet (((k + 1 : ℕ) : ℤ) * v) g0) = false := by
    apply setOutOfFrame_eq_false_of
    · simp only [ne_eq, shiftSet, List.map_eq_nil_iff]
      exact hne
    · intro o2 ho2
      rw [mem_shiftSet] at ho2
      obtain ⟨o, ho, rfl⟩ := ho2
      have h1 := hframe o ho
      simp only
      linarith [hle]
  have hcolF : collides_any br initBlue initRed
      (shiftSet (((k + 1 : ℕ) : ℤ) * v) g0) = false := by
    apply collides_any_false_of_above _ _ _ _ hbr
    intro o2 ho2
    rw [mem_shiftSet] at ho2
    obtain ⟨o, ho, rfl⟩ := ho2
    have h2 := hcol o ho
    have h3 : ((((k + 1 : ℕ) : ℤ) * v : ℤ) : ℝ) ≤ ((140 * v : ℤ) : ℝ) := by
      exact_mod_cast hle
    refine ⟨hh o ho, ?_, ?_⟩
    · rw [initBlue_position_snd]
      simp only
      push_cast at h2 h3 ⊢
      linarith
    · rw [initRed_position_snd]
      simp only
      push_cast at h2 h3 ⊢
      linarith
  have hq := tick_quiet g1 v br (shiftSet ((k : ℤ) * v) g0)
    ((k + 1) % NEW_OBS_INTERVAL) 0 0 1
    (by rw [hshift]; exact hgF) (by rw [hshift]; exact hcolF)
  have hstate : c6State g0 g1 v k =
      { mode := "man"
        blue := initBlue
        red := initRed
        sets := [shiftSet ((k : ℤ) * v) g0]
        score := 0
        i := (k + 1) % NEW_OBS_INTERVAL
        gameOver := false
        spawnCount := 1
        removeCount := 0 } := by
    simp [c6State, hk139]
  rw [hstate, hq]
  congr 1
  by_cases hklt : k < 139
  · have h1 : (k + 1) % NEW_OBS_INTERVAL = k + 1 :=
      Nat.mod_eq_of_lt (by simp only [NEW_OBS_INTERVAL]; omega)
    have h2 : ¬(k + 1) % NEW_OBS_INTERVAL % NEW_OBS_INTERVAL = 0 := by
      rw [Nat.mod_mod_of_dvd _ dvd_rfl, h1]
      omega
    have h3 : k + 1 ≤ 139 := by omega
    simp only [c6State, h3, if_true, ite_true, h2, if_false, ite_false, hshift,
      Nat.mod_add_mod]
  · have hk' : k = 139 := by omega
    subst hk'
    have h1 : (139 + 1) % NEW_OBS_INTERVAL % NEW_OBS_INTERVAL = 0 := by
      simp [NEW_OBS_INTERVAL]
    have h2 : ¬(139 + 1 ≤ 139) := by omega
    simp only [c6State, h2, if_false, ite_false, h1, if_true, ite_true, hshift,
      Nat.mod_add_mod]
    congr 1

/-- C6: starting from a freshly constructed manual-mode session (blue ball at
angle pi, red at 0, the obstacle manager holding only the construction-time
set `g0`), 140 ticks with no steering input and generation outcomes `g1`
succeed, spawn exactly one new obstacle set (the session's spawn counter goes
from 1 to 2 and the set list from one set to two), and leave the score at 0 --
provided the fixed constants keep the initial set inside the frame and clear
of the balls for those 140 ticks (`g0` nonempty, nonnegative heights,
nonnegative scroll speed and ball radius, and the two clearance bounds). -/
theorem c6_quiet_140_ticks (g0 g1 : ObstacleSet) (v : ℤ) (br : ℝ)
    (hne : g0 ≠ []) (hv : 0 ≤ v) (hbr : 0 ≤ br)
    (hh : ∀ o ∈ g0, (0 : ℤ) ≤ o.h)
    (hframe : ∀ o ∈ g0, o.y + 140 * v ≤ BOARD_HEIGHT + o.h)
    (hcol : ∀ o ∈ g0, (o.y : ℝ) + (o.h : ℝ) + 140 * (v : ℝ) + br <
      ((BOARD_HEIGHT - DIST_TO_BOTTOM : ℤ) : ℝ)) :
    run v br (List.replicate 140 (noInput, g1)) (initState "man" g0) =
      .ok { mode := "man"
            blue := initBlue
            red := initRed
            sets := [shiftSet (140 * v) g0, g1]
            score := 0
            i := 1
            gameOver := false
            spawnCount := 2
            removeCount := 0 } := by
  have h0 : initState "man" g0 = c6State g0 g1 v 0 := (c6State_zero g0 g1 v).symm
  rw [h0]
  have hrun := run_of_steps v br noInput g1 140 (c6State g0 g1 v)
    (fun k _ => c6State_gameOver g0 g1 v k)
    (fun k hk => c6_step g0 g1 v br hne hv hbr hh hframe hcol k hk)
  rw [hrun]
  congr 1

/-- C6 witness: a concrete instance -- full-width bar of height 50 spawned at
the top, scroll speed 4, ball radius 10; after 140 quiet ticks the bar has
scrolled to y = 560, one new set was spawned, the score is 0. -/
theorem c6_witness :
    run 4 10 (List.replicate 140 (noInput, cSet)) (initState "man" cSet) =
      .ok { mode := "man"
            blue := initBlue
            red := initRed
            sets := [shiftSet (140 * 4) cSet, cSet]
            score := 0
            i := 1
            gameOver := false
            spawnCount := 2
            removeCount := 0 } :=
  c6_quiet_140_ticks cSet cSet 4 10 (by simp [cSet])
    (by norm_num) (by norm_num)
    (by intro o ho
        simp only [cSet, cObs, List.mem_singleton] at ho
        subst ho
        norm_num)
    (by intro o ho
        simp only [cSet, cObs, List.mem_singleton] at ho
        subst ho
        norm_num [BOARD_HEIGHT])
    (by intro o ho
        simp only [cSet, cObs, List.mem_singleton] at ho
        subst ho
        norm_num [BOARD_HEIGHT, DIST_TO_BOTTOM, CIRCLE_RADIUS])
